import Mathlib

set_option maxRecDepth 4000

/-!
Verification of the rent-reconciliation engine of the `rent3` repository.

The engine lives in `rent_checker.py` (class `RentChecker`), with the data
model in `models.py` and the mail layer in `email_service.py`.  The Lean
definitions below are a shallow embedding of that code: every Python
function that the claims touch is translated into a pure, executable Lean
function, with the database session replaced by an explicit list of
`RentCheck` rows, the HTTP layer replaced by an explicit outcome value, and
exceptions replaced by `Except`.  Monetary values (`float` transaction
amounts and `Numeric(10,2)` rent amounts) are embedded as `Rat`.
-/

/- ---------------------------------------------------------------------
Calendar dates.  Python's `datetime.date` exposes `.day` (day of month,
1-based) and `.weekday()` (0 = Monday .. 6 = Sunday).  We embed a date as
its (year, month, day) triple and compute the weekday with Zeller's
congruence, shifted to Python's Monday-0 convention.
--------------------------------------------------------------------- -/

/-- Gregorian leap-year rule, as used by `datetime.date`. -/
def isLeapYear (y : Nat) : Bool :=
  (y % 4 == 0 && y % 100 != 0) || y % 400 == 0

/-- Number of days in a month of the Gregorian calendar. -/
def daysInMonth (y m : Nat) : Nat :=
  if m == 2 then (if isLeapYear y then 29 else 28)
  else if m == 4 || m == 6 || m == 9 || m == 11 then 30
  else 31

/-- A calendar date, as the (year, month, day) triple of `datetime.date`. -/
structure PyDate where
  year : Nat
  month : Nat
  day : Nat
deriving DecidableEq, Repr

/-- The date is a real Gregorian date (what `datetime.date` enforces). -/
def PyDate.isValid (d : PyDate) : Prop :=
  1 ≤ d.month ∧ d.month ≤ 12 ∧ 1 ≤ d.day ∧ d.day ≤ daysInMonth d.year d.month

instance (d : PyDate) : Decidable d.isValid := by
  unfold PyDate.isValid
  infer_instance

/-- Day of week of a Gregorian date by Zeller's congruence, shifted to the
convention of Python's `date.weekday()`: 0 = Monday .. 6 = Sunday. -/
def PyDate.weekday (d : PyDate) : Nat :=
  let y := if d.month ≤ 2 then d.year - 1 else d.year
  let m := if d.month ≤ 2 then d.month + 12 else d.month
  let K := y % 100
  let J := y / 100
  let h := (d.day + (13 * (m + 1)) / 5 + K + K / 4 + J / 4 + 5 * J) % 7
  (h + 5) % 7

/-- Sanity check of the weekday computation: 2024-01-01 was a Monday and
2025-02-15 was a Saturday. -/
theorem weekday_sanity :
    (PyDate.mk 2024 1 1).weekday = 0 ∧ (PyDate.mk 2025 2 15).weekday = 5 := by
  decide

/- ---------------------------------------------------------------------
Data model (`models.py`).  Only the columns the engine reads are kept.
--------------------------------------------------------------------- -/

/-- `AkahuCredentials` row: the two opaque tokens. -/
structure AkahuCredentials where
  app_token : String
  user_token : String
deriving DecidableEq, Repr

/-- `User` row (the landlord account), restricted to the fields read by
`rent_checker.py`.  `akahu_credentials` is the 0..1 relationship. -/
structure User where
  id : Nat
  email : String
  first_name : String
  last_name : String
  akahu_credentials : Option AkahuCredentials
deriving DecidableEq, Repr

/-- `Property` row (a rental agreement), restricted to the fields read by
the engine.  `rent_due_day_of_week` uses 0 = Monday .. 6 = Sunday;
`rent_due_day` is a day of month; `rent_amount` is the `Numeric(10,2)`
expected rent. -/
structure Property where
  id : Nat
  user_id : Nat
  property_address : String
  tenant_name : String
  tenant_email : String
  rent_amount : Rat
  rent_frequency : String
  rent_due_day_of_week : Nat
  rent_due_day : Nat
  bank_statement_keyword : String
  send_tenant_reminder : Bool
deriving DecidableEq, Repr

/-- A bank transaction as returned by the aggregator: a JSON object from
which the matcher reads `description` (absent field treated as `''` via
`transaction.get('description', '')`) and the ledger writer reads
`amount` (a signed decimal). -/
structure Transaction where
  description : Option String
  amount : Rat
deriving DecidableEq, Repr

/-- `RentCheck` row (`models.py`): the reconciliation outcome for one
(property, date) pair, with the column defaults of the model. -/
structure RentCheck where
  property_id : Nat
  check_date : PyDate
  rent_due_date : PyDate
  payment_found : Bool
  payment_amount : Option Rat
  payment_keyword_match : Bool
  amount_matches : Bool
  notification_sent : Bool
  tenant_notification_sent : Bool
deriving DecidableEq, Repr

/- ---------------------------------------------------------------------
Due-Date Evaluator: `RentChecker.is_rent_due` (rent_checker.py:54-71).
--------------------------------------------------------------------- -/

/-- `RentChecker.is_rent_due(property, check_date)`: string-dispatch on
`rent_frequency`, falling through to `False` for any other string. -/
def is_rent_due (property : Property) (check_date : PyDate) : Bool :=
  if property.rent_frequency == "Weekly" then
    check_date.weekday == property.rent_due_day_of_week
  else if property.rent_frequency == "Fortnightly" then
    check_date.weekday == property.rent_due_day_of_week && check_date.day % 14 == 0
  else if property.rent_frequency == "Monthly" then
    check_date.day == property.rent_due_day
  else
    false

/- ---------------------------------------------------------------------
Payment Matcher: `RentChecker.find_rent_payment` (rent_checker.py:150-168).
Python's `keyword in description` is a contiguous-substring test on the
lower-cased strings; we embed strings as their character lists.
--------------------------------------------------------------------- -/

/-- The character list of a string, lower-cased (Python `str.lower()`). -/
def strLower (s : String) : List Char := s.data.map Char.toLower

/-- `needle` is a prefix of `haystack` (character lists). -/
def prefixMatch : List Char → List Char → Bool
  | [], _ => true
  | _ :: _, [] => false
  | n :: ns, c :: cs => (n == c) && prefixMatch ns cs

/-- `needle` occurs as a contiguous substring of `haystack`: Python's
`needle in haystack` on strings. -/
def containsSub (needle : List Char) : List Char → Bool
  | [] => needle.isEmpty
  | c :: cs => prefixMatch needle (c :: cs) || containsSub needle cs

/-- `RentChecker.find_rent_payment(transactions, property)`: lower-case the
configured keyword, walk the transactions in order, and return the first
whose (lower-cased, `''`-defaulted) description contains it.  The local
`amount = abs(transaction.get('amount', 0))` in the Python loop body is
unused and does not influence the returned value. -/
def find_rent_payment (transactions : List Transaction) (property : Property) :
    Option Transaction :=
  transactions.find? (fun transaction =>
    containsSub (strLower property.bank_statement_keyword)
      (strLower (transaction.description.getD "")))

/- ---------------------------------------------------------------------
Check Ledger: the lookup and the row constructed by
`RentChecker.check_property_rent_payment` (rent_checker.py:73-110).
The `rent_checks` table is embedded as a list of rows.
--------------------------------------------------------------------- -/

/-- Python's `abs` on a signed decimal. -/
def ratAbs (q : Rat) : Rat := if q < 0 then -q else q

/-- `RentCheck.query.filter_by(property_id=..., check_date=...).first()`. -/
def findExistingCheck (ledger : List RentCheck) (pid : Nat) (d : PyDate) :
    Option RentCheck :=
  ledger.find? (fun rc => decide (rc.property_id = pid ∧ rc.check_date = d))

/-- The `RentCheck(...)` constructed at rent_checker.py:94-104: column
defaults from `models.py` for the fields not set, then the three
matched-payment fields filled in when `rent_payment` is not `None`.
`rent_payment['amount']` is read directly (the engine only ever builds the
row from aggregator items carrying an `amount`). -/
def mkRentCheck (property : Property) (check_date : PyDate)
    (rent_payment : Option Transaction) : RentCheck :=
  let base : RentCheck :=
    { property_id := property.id
      check_date := check_date
      rent_due_date := check_date
      payment_found := rent_payment.isSome
      payment_amount := none
      payment_keyword_match := false
      amount_matches := false
      notification_sent := false
      tenant_notification_sent := false }
  match rent_payment with
  | none => base
  | some t =>
      { base with
        payment_amount := some (ratAbs t.amount)
        payment_keyword_match := true
        amount_matches := decide (ratAbs t.amount = property.rent_amount) }

/- ---------------------------------------------------------------------
Notifier: `RentChecker.send_notifications` (rent_checker.py:170-222).
The four `send_*` helpers of `email_service.py` all delegate to
`send_email`, which catches every exception and reports success as a
boolean that `send_notifications` discards.  We embed a dispatch attempt
as the message value paired with the outcome an oracle `sendOk` assigns
to it (the boolean `send_email` would return and log in `EmailLog`).
--------------------------------------------------------------------- -/

/-- The four notification messages of `email_service.py`, carrying exactly
the arguments `send_notifications` passes (the check date is passed as a
value here where the code formats it with `strftime('%Y-%m-%d')`). -/
inductive Email where
  | rentReceived (recipient address tenant : String) (amount : Option Rat) (d : PyDate)
  | rentMismatch (recipient address tenant : String) (expected : Rat)
      (actual : Option Rat) (d : PyDate)
  | rentMissed (recipient address tenant : String) (expected : Rat) (d : PyDate)
  | tenantReminder (recipient tenant address : String) (amount : Rat)
      (landlordName : String)
deriving DecidableEq, Repr

/-- `RentChecker.send_notifications(user, property, rent_check, rent_payment)`:
branch on `payment_found` / `amount_matches`, dispatch the landlord message,
set `notification_sent = True` (the boolean result of the send is discarded),
and on the missed branch additionally dispatch the tenant reminder iff
`property.send_tenant_reminder`, setting `tenant_notification_sent = True`.
Returns the updated row and the list of dispatch attempts with their
outcomes. -/
def send_notifications (user : User) (property : Property) (rent_check : RentCheck)
    (sendOk : Email → Bool) : RentCheck × List (Email × Bool) :=
  if rent_check.payment_found then
    if rent_check.amount_matches then
      let e := Email.rentReceived user.email property.property_address
        property.tenant_name rent_check.payment_amount rent_check.check_date
      ({ rent_check with notification_sent := true }, [(e, sendOk e)])
    else
      let e := Email.rentMismatch user.email property.property_address
        property.tenant_name property.rent_amount rent_check.payment_amount
        rent_check.check_date
      ({ rent_check with notification_sent := true }, [(e, sendOk e)])
  else
    let e := Email.rentMissed user.email property.property_address
      property.tenant_name property.rent_amount rent_check.check_date
    if property.send_tenant_reminder then
      let e2 := Email.tenantReminder property.tenant_email property.tenant_name
        property.property_address property.rent_amount
        (user.first_name ++ " " ++ user.last_name)
      ({ rent_check with notification_sent := true, tenant_notification_sent := true },
        [(e, sendOk e), (e2, sendOk e2)])
    else
      ({ rent_check with notification_sent := true }, [(e, sendOk e)])

/- ---------------------------------------------------------------------
Transaction Fetcher: `RentChecker.get_bank_transactions`
(rent_checker.py:112-148).  The outbound HTTP call is embedded as an
explicit outcome: a transport failure (any exception inside the `try`)
or a response with a status code and an optional `items` array (absent
when the parsed body has no `items` key, read via `data.get('items', [])`).
--------------------------------------------------------------------- -/

/-- Outcome of the `requests.get` call to the aggregator. -/
inductive HttpOutcome where
  | failure (message : String)
  | response (status : Nat) (items : Option (List Transaction))
deriving Repr

/-- `RentChecker.get_bank_transactions(user, check_date)`: no credentials,
a transport failure, or a status other than 200 all yield `[]` (logged,
never raised); a 200 response yields its `items`, defaulting to `[]`. -/
def get_bank_transactions (credentials : Option AkahuCredentials)
    (outcome : HttpOutcome) : List Transaction :=
  match credentials with
  | none => []
  | some _ =>
      match outcome with
      | .failure _ => []
      | .response status items => if status == 200 then items.getD [] else []

/- ---------------------------------------------------------------------
Check Ledger write + one property: the un-gated tail of
`check_property_rent_payment` after the idempotency gate at
rent_checker.py:78-85.
--------------------------------------------------------------------- -/

/-- `RentChecker.check_property_rent_payment(user, property, check_date)`,
with the already-fetched transactions passed in: if a `RentCheck` row for
`(property.id, check_date)` exists, return unchanged and dispatch nothing;
otherwise match, insert the new row, and send notifications (which set the
row's notification flags before the final commit). -/
def check_property_rent_payment (user : User) (property : Property)
    (check_date : PyDate) (transactions : List Transaction)
    (sendOk : Email → Bool) (ledger : List RentCheck) :
    List RentCheck × List (Email × Bool) :=
  match findExistingCheck ledger property.id check_date with
  | some _ => (ledger, [])
  | none =>
      let rent_payment := find_rent_payment transactions property
      let rent_check := mkRentCheck property check_date rent_payment
      let result := send_notifications user property rent_check sendOk
      (ledger ++ [result.1], result.2)

/- ---------------------------------------------------------------------
Reconciliation Driver: `check_user_rent_payments` (rent_checker.py:34-52)
and `check_all_rent_payments` (rent_checker.py:14-32).  Each loop body is
wrapped in `try/except Exception: log; continue`; we embed the body as a
state transformer that may fail (`Except`), with failure caught in the
loop: the state is left as it was and the run continues.
--------------------------------------------------------------------- -/

/-- `RentChecker.check_user_rent_payments(user, check_date)`: loop over the
user's properties; for each, if rent is due run the per-property check,
catching any exception it raises and continuing with the next property. -/
def check_user_rent_payments {σ ε : Type} (checkProp : Property → σ → Except ε σ)
    (due : Property → Bool) : List Property → σ → σ
  | [], s => s
  | p :: ps, s =>
      let s2 := if due p then
          match checkProp p s with
          | .ok s3 => s3
          | .error _ => s
        else s
      check_user_rent_payments checkProp due ps s2

/-- `RentChecker.check_all_rent_payments()`: loop over the users that have
Akahu credentials, catching any exception raised while checking one user
and continuing with the next. -/
def check_all_rent_payments {σ ε : Type} (checkUser : User → σ → Except ε σ) :
    List User → σ → σ
  | [], s => s
  | u :: us, s =>
      let s2 := match checkUser u s with
        | .ok s3 => s3
        | .error _ => s
      check_all_rent_payments checkUser us s2

/- ---------------------------------------------------------------------
The ledger invariant and shared concrete fixtures.
--------------------------------------------------------------------- -/

/-- At most one `RentCheck` row per (property id, check date) pair. -/
def atMostOnePerKey (ledger : List RentCheck) : Prop :=
  ledger.Pairwise (fun a b => ¬(a.property_id = b.property_id ∧ a.check_date = b.check_date))

/-- Concrete landlord used by the closed witness statements. -/
def sampleUser : User :=
  { id := 1, email := "landlord@example.com", first_name := "Ada",
    last_name := "Lovelace", akahu_credentials := some ⟨"app-tok", "user-tok"⟩ }

/-- Concrete agreement used by the closed witness statements. -/
def sampleProperty : Property :=
  { id := 7, user_id := 1, property_address := "1 Queen St",
    tenant_name := "Bob Tenant", tenant_email := "bob@example.com",
    rent_amount := 800, rent_frequency := "Monthly", rent_due_day_of_week := 0,
    rent_due_day := 1, bank_statement_keyword := "RENT",
    send_tenant_reminder := true }

/-- Concrete check date (1 February 2025) for the witness statements. -/
def sampleDate : PyDate := ⟨2025, 2, 1⟩

/-- Concrete matching transaction for the witness statements. -/
def sampleTx : Transaction := ⟨some "weekly rent payment", -800⟩

/-- Concrete Weekly agreement due on Saturdays, for the witness statements. -/
def sampleWeeklySat : Property :=
  { sampleProperty with rent_frequency := "Weekly", rent_due_day_of_week := 5 }

/-- Concrete Monthly agreement with `rent_due_day = 31`. -/
def sampleMonthly31 : Property := { sampleProperty with rent_due_day := 31 }

/-- Concrete agreement with an unknown frequency string. -/
def sampleQuarterly : Property := { sampleProperty with rent_frequency := "Quarterly" }

/-- Dispatch oracle under which every send succeeds. -/
def allSendOk : Email → Bool := fun _ => true

/-- Dispatch oracle under which every send fails. -/
def allSendFail : Email → Bool := fun _ => false

/-- Reference matcher, modelled from the spec's words (§4.3): walk the
fetcher-provided list in order and return the first transaction whose
description contains the keyword (case-insensitively), `none` otherwise.
Used only to compare against `find_rent_payment`. -/
def find_match_spec (transactions : List Transaction) (agreement : Property) :
    Option Transaction :=
  match transactions with
  | [] => none
  | t :: ts =>
      if containsSub (strLower agreement.bank_statement_keyword)
          (strLower (t.description.getD "")) then some t
      else find_match_spec ts agreement

/- ---------------------------------------------------------------------
Helper lemmas (shared between the claim theorems).
--------------------------------------------------------------------- -/

/-- The empty string is a substring of every string. -/
theorem containsSub_nil (l : List Char) : containsSub [] l = true := by
  cases l <;> rfl

/-- `send_notifications` only touches the two notification flags of the row. -/
theorem send_notifications_fst_fields (u : User) (p : Property) (rc : RentCheck)
    (sendOk : Email → Bool) :
    (send_notifications u p rc sendOk).1.property_id = rc.property_id ∧
    (send_notifications u p rc sendOk).1.check_date = rc.check_date ∧
    (send_notifications u p rc sendOk).1.payment_found = rc.payment_found := by
  unfold send_notifications
  cases hf : rc.payment_found <;> cases hm : rc.amount_matches <;>
    cases hr : p.send_tenant_reminder <;> simp [hf, hm, hr]

/-- The key fields of the row built by the ledger write. -/
theorem mkRentCheck_key (p : Property) (d : PyDate) (mt : Option Transaction) :
    (mkRentCheck p d mt).property_id = p.id ∧ (mkRentCheck p d mt).check_date = d := by
  unfold mkRentCheck
  cases mt <;> simp

/-- After `check_property_rent_payment` runs, the lookup for the processed
(property id, check date) key finds a row. -/
theorem findExistingCheck_after_check (u : User) (p : Property) (d : PyDate)
    (txs : List Transaction) (sendOk : Email → Bool) (ledger : List RentCheck) :
    (findExistingCheck (check_property_rent_payment u p d txs sendOk ledger).1
      p.id d).isSome = true := by
  unfold check_property_rent_payment
  cases hex : findExistingCheck ledger p.id d with
  | some rc => simp only [hex, Option.isSome_some]
  | none =>
      simp only []
      unfold findExistingCheck at hex ⊢
      rw [List.find?_append, hex, Option.none_or]
      have hpid := (send_notifications_fst_fields u p
        (mkRentCheck p d (find_rent_payment txs p)) sendOk).1
      have hdate := (send_notifications_fst_fields u p
        (mkRentCheck p d (find_rent_payment txs p)) sendOk).2.1
      have hkey := mkRentCheck_key p d (find_rent_payment txs p)
      rw [List.find?_cons_of_pos]
      · rfl
      · simp [hpid, hdate, hkey.1, hkey.2]

/- ---------------------------------------------------------------------
Claim theorems.
--------------------------------------------------------------------- -/

/-- Claim C2: `is_rent_due` agrees with the reference definition — Weekly is
due iff the date's weekday equals `rent_due_day_of_week`; Fortnightly iff the
weekday matches and the day of month is divisible by 14; Monthly iff the day
of month equals `rent_due_day`, with no clamping for short months, so a
`rent_due_day` of 31 never matches on any valid February date. -/
theorem is_rent_due_matches_reference (p : Property) (d : PyDate) :
    (p.rent_frequency = "Weekly" →
      (is_rent_due p d = true ↔ d.weekday = p.rent_due_day_of_week)) ∧
    (p.rent_frequency = "Fortnightly" →
      (is_rent_due p d = true ↔
        d.weekday = p.rent_due_day_of_week ∧ 14 ∣ d.day)) ∧
    (p.rent_frequency = "Monthly" →
      (is_rent_due p d = true ↔ d.day = p.rent_due_day)) ∧
    (p.rent_frequency = "Monthly" → p.rent_due_day = 31 → d.month = 2 →
      d.isValid → is_rent_due p d = false) := by
  refine ⟨fun h => ?_, fun h => ?_, fun h => ?_, fun h h31 hm hv => ?_⟩
  · simp [is_rent_due, h]
  · simp [is_rent_due, h, Nat.dvd_iff_mod_eq_zero]
  · simp [is_rent_due, h]
  · have hle : d.day ≤ daysInMonth d.year d.month := hv.2.2.2
    rw [hm] at hle
    unfold daysInMonth at hle
    have h29 : d.day ≤ 29 := by
      cases hleap : isLeapYear d.year <;> simp [hleap] at hle <;> omega
    simp [is_rent_due, h, h31]
    omega

/-- Witness for C2 at concrete inputs: a Weekly agreement due on Saturday is
due on 2025-02-15 (a Saturday), and a Monthly agreement with `rent_due_day=31`
is never due on a valid February date such as 2025-02-15. -/
theorem is_rent_due_matches_reference_witness :
    is_rent_due sampleWeeklySat ⟨2025, 2, 15⟩ = true ∧
    is_rent_due sampleMonthly31 ⟨2025, 2, 15⟩ = false :=
  ⟨((is_rent_due_matches_reference _ _).1 rfl).mpr (by decide),
   (is_rent_due_matches_reference _ _).2.2.2 rfl rfl rfl (by decide)⟩

/-- Claim C9: for any frequency string other than `Weekly`, `Fortnightly` or
`Monthly`, `is_rent_due` returns `false`, and consequently the driver's
per-property loop passes over such an agreement with the run state untouched:
no fetch, no ledger write, no notification happen for it. -/
theorem is_rent_due_unknown_frequency (p : Property) (d : PyDate)
    (h1 : p.rent_frequency ≠ "Weekly") (h2 : p.rent_frequency ≠ "Fortnightly")
    (h3 : p.rent_frequency ≠ "Monthly") :
    is_rent_due p d = false ∧
    ∀ (σ ε : Type) (checkProp : Property → σ → Except ε σ)
      (rest : List Property) (s : σ),
      check_user_rent_payments checkProp (fun q => is_rent_due q d) (p :: rest) s =
        check_user_rent_payments checkProp (fun q => is_rent_due q d) rest s := by
  have hfalse : is_rent_due p d = false := by
    simp [is_rent_due, h1, h2, h3]
  refine ⟨hfalse, fun σ ε checkProp rest s => ?_⟩
  conv_lhs => rw [check_user_rent_payments]
  simp [hfalse]

/-- Witness for C9: a `Quarterly` agreement is never due, and the driver loop
over it leaves the run state untouched. -/
theorem is_rent_due_unknown_frequency_witness :
    is_rent_due sampleQuarterly sampleDate = false ∧
    check_user_rent_payments
        (fun (_ : Property) (n : Nat) => (Except.ok (n + 1) : Except Unit Nat))
        (fun q => is_rent_due q sampleDate) [sampleQuarterly] 0 = 0 :=
  ⟨(is_rent_due_unknown_frequency _ sampleDate (by decide) (by decide) (by decide)).1,
   (is_rent_due_unknown_frequency _ sampleDate (by decide) (by decide) (by decide)).2
     Nat Unit _ [] 0⟩

/-- Claim C5: `find_rent_payment` performs a case-insensitive substring test
of the agreement's keyword against each transaction's description and returns
the first transaction, in list order, whose description contains it (`none`
when no transaction matches); the amounts play no role in the selection, and
keyword `"RENT"` matches description `"weekly rent payment"`. -/
theorem find_rent_payment_first_match (transactions : List Transaction)
    (p : Property) :
    find_rent_payment transactions p = find_match_spec transactions p ∧
    (∀ g : Transaction → Rat,
      find_rent_payment (transactions.map (fun t => ⟨t.description, g t⟩)) p =
        (find_rent_payment transactions p).map (fun t => ⟨t.description, g t⟩)) ∧
    find_rent_payment [sampleTx] sampleProperty = some sampleTx := by
  refine ⟨?_, fun g => ?_, ?_⟩
  · induction transactions with
    | nil => rfl
    | cons t ts ih =>
        simp only [find_rent_payment] at ih ⊢
        by_cases hc : containsSub (strLower p.bank_statement_keyword)
            (strLower (t.description.getD "")) = true
        · have hfind : (t :: ts).find? (fun transaction =>
              containsSub (strLower p.bank_statement_keyword)
                (strLower (transaction.description.getD ""))) = some t :=
            List.find?_cons_of_pos ts hc
          rw [hfind, find_match_spec, if_pos hc]
        · have hfind : (t :: ts).find? (fun transaction =>
              containsSub (strLower p.bank_statement_keyword)
                (strLower (transaction.description.getD ""))) =
              ts.find? (fun transaction =>
              containsSub (strLower p.bank_statement_keyword)
                (strLower (transaction.description.getD ""))) :=
            List.find?_cons_of_neg ts hc
          rw [hfind, find_match_spec, if_neg hc]
          exact ih
  · simp only [find_rent_payment]
    rw [List.find?_map]
    rfl
  · decide

/-- Claim C10: with an empty keyword, `find_rent_payment` returns the first
transaction of any non-empty list (the empty string is a substring of every
description, including the `''` substituted for a missing one). -/
theorem find_rent_payment_empty_keyword (p : Property) (t : Transaction)
    (rest : List Transaction) (h : p.bank_statement_keyword = "") :
    find_rent_payment (t :: rest) p = some t := by
  unfold find_rent_payment
  apply List.find?_cons_of_pos
  rw [h]
  exact containsSub_nil _

/-- Witness for C10: the empty keyword selects the head transaction, even one
with no description field. -/
theorem find_rent_payment_empty_keyword_witness :
    find_rent_payment [⟨none, 5⟩, sampleTx]
      { sampleProperty with bank_statement_keyword := "" } = some ⟨none, 5⟩ :=
  find_rent_payment_empty_keyword _ _ _ rfl

/-- Claim C4: the `RentCheck` row written by the ledger has
`payment_found` true iff a match was found; when matched, `payment_amount` is
the absolute value of the matched amount, `payment_keyword_match` is true and
`amount_matches` holds iff that absolute value equals the expected rent; when
unmatched, `payment_amount` is null and `amount_matches` is false. -/
theorem rent_check_ledger_write_fields (p : Property) (d : PyDate)
    (mt : Option Transaction) :
    (mkRentCheck p d mt).payment_found = mt.isSome ∧
    (∀ t, mt = some t →
      (mkRentCheck p d mt).payment_amount = some (ratAbs t.amount) ∧
      (mkRentCheck p d mt).payment_keyword_match = true ∧
      ((mkRentCheck p d mt).amount_matches = true ↔
        ratAbs t.amount = p.rent_amount)) ∧
    (mt = none →
      (mkRentCheck p d mt).payment_amount = none ∧
      (mkRentCheck p d mt).amount_matches = false) := by
  refine ⟨?_, fun t ht => ?_, fun ht => ?_⟩
  · unfold mkRentCheck; cases mt <;> simp
  · subst ht; unfold mkRentCheck; simp
  · subst ht; exact ⟨rfl, rfl⟩

/-- Witness for C4: a matched transaction of `-800.00` against an expected
rent of `800.00` yields `amount_matches = true`, and an unmatched check has a
null `payment_amount`. -/
theorem rent_check_ledger_write_fields_witness :
    (mkRentCheck sampleProperty sampleDate (some sampleTx)).amount_matches = true ∧
    (mkRentCheck sampleProperty sampleDate none).payment_amount = none :=
  ⟨((rent_check_ledger_write_fields sampleProperty sampleDate (some sampleTx)).2.1
      sampleTx rfl).2.2.mpr (by decide),
   ((rent_check_ledger_write_fields sampleProperty sampleDate none).2.2 rfl).1⟩

/-- Claim C3: `send_notifications` follows the decision table — found and
matching: exactly a "rent received" message to the landlord; found and not
matching: exactly a "rent amount mismatch" message (expected vs actual) to
the landlord; not found: a "rent missed" message to the landlord, plus a
tenant reminder iff `send_tenant_reminder` is set.  In the first two rows no
tenant message is dispatched. -/
theorem send_notifications_decision_table (u : User) (p : Property)
    (rc : RentCheck) (sendOk : Email → Bool) :
    (rc.payment_found = true → rc.amount_matches = true →
      (send_notifications u p rc sendOk).2.map Prod.fst =
        [Email.rentReceived u.email p.property_address p.tenant_name
          rc.payment_amount rc.check_date]) ∧
    (rc.payment_found = true → rc.amount_matches = false →
      (send_notifications u p rc sendOk).2.map Prod.fst =
        [Email.rentMismatch u.email p.property_address p.tenant_name
          p.rent_amount rc.payment_amount rc.check_date]) ∧
    (rc.payment_found = false →
      (send_notifications u p rc sendOk).2.map Prod.fst =
        Email.rentMissed u.email p.property_address p.tenant_name
          p.rent_amount rc.check_date ::
        (if p.send_tenant_reminder then
          [Email.tenantReminder p.tenant_email p.tenant_name p.property_address
            p.rent_amount (u.first_name ++ " " ++ u.last_name)]
        else [])) := by
  refine ⟨fun hf hm => ?_, fun hf hm => ?_, fun hf => ?_⟩
  · unfold send_notifications; simp [hf, hm]
  · unfold send_notifications; simp [hf, hm]
  · unfold send_notifications
    cases hr : p.send_tenant_reminder <;> simp [hf, hr]

/-- Witness for C3: on a concrete missed check with the reminder enabled, the
dispatched messages are the landlord's "rent missed" followed by the tenant
reminder. -/
theorem send_notifications_decision_table_witness :
    (send_notifications sampleUser sampleProperty
        (mkRentCheck sampleProperty sampleDate none) allSendOk).2.map Prod.fst =
      Email.rentMissed sampleUser.email sampleProperty.property_address
        sampleProperty.tenant_name sampleProperty.rent_amount
        (mkRentCheck sampleProperty sampleDate none).check_date ::
      (if sampleProperty.send_tenant_reminder then
        [Email.tenantReminder sampleProperty.tenant_email
          sampleProperty.tenant_name sampleProperty.property_address
          sampleProperty.rent_amount
          (sampleUser.first_name ++ " " ++ sampleUser.last_name)]
      else []) :=
  (send_notifications_decision_table sampleUser sampleProperty _ allSendOk).2.2 rfl

/-- Claim C7: every landlord branch of `send_notifications` leaves the row
with `notification_sent = true`, and the updated row does not depend on the
dispatch outcomes at all; `tenant_notification_sent` becomes true exactly on
the missed-payment branch with `send_tenant_reminder` enabled (for a row that
does not already carry the flag). -/
theorem send_notifications_sets_flags (u : User) (p : Property) (rc : RentCheck)
    (sendOk : Email → Bool) :
    (send_notifications u p rc sendOk).1.notification_sent = true ∧
    (∀ sendOk2 : Email → Bool,
      (send_notifications u p rc sendOk).1 = (send_notifications u p rc sendOk2).1) ∧
    (rc.tenant_notification_sent = false →
      ((send_notifications u p rc sendOk).1.tenant_notification_sent = true ↔
        rc.payment_found = false ∧ p.send_tenant_reminder = true)) := by
  refine ⟨?_, fun sendOk2 => ?_, fun ht => ?_⟩
  · unfold send_notifications
    cases hf : rc.payment_found <;> cases hm : rc.amount_matches <;>
      cases hr : p.send_tenant_reminder <;> simp [hf, hm, hr]
  · unfold send_notifications
    cases hf : rc.payment_found <;> cases hm : rc.amount_matches <;>
      cases hr : p.send_tenant_reminder <;> simp [hf, hm, hr]
  · unfold send_notifications
    cases hf : rc.payment_found <;> cases hm : rc.amount_matches <;>
      cases hr : p.send_tenant_reminder <;> simp [hf, hm, hr, ht]

/-- Witness for C7: on a concrete missed check, even with every dispatch
failing, the landlord flag is set and the tenant flag is set (reminder
enabled). -/
theorem send_notifications_sets_flags_witness :
    (send_notifications sampleUser sampleProperty
        (mkRentCheck sampleProperty sampleDate none) allSendFail).1.notification_sent
        = true ∧
    (send_notifications sampleUser sampleProperty
        (mkRentCheck sampleProperty sampleDate none)
        allSendFail).1.tenant_notification_sent = true :=
  ⟨(send_notifications_sets_flags sampleUser sampleProperty _ allSendFail).1,
   ((send_notifications_sets_flags sampleUser sampleProperty _ allSendFail).2.2
      rfl).mpr ⟨rfl, rfl⟩⟩

/-- Claim C1: the ledger is idempotent per (property id, check date) — when a
row already exists the per-property check returns the ledger unchanged and
dispatches nothing; running the check a second time for the same pair is a
no-op with no notifications; and the at-most-one-row-per-key invariant is
preserved by every run. -/
theorem check_ledger_idempotent (u u2 : User) (p : Property) (d : PyDate)
    (txs txs2 : List Transaction) (ok ok2 : Email → Bool)
    (ledger : List RentCheck) :
    (∀ rc, findExistingCheck ledger p.id d = some rc →
      check_property_rent_payment u p d txs ok ledger = (ledger, [])) ∧
    (check_property_rent_payment u2 p d txs2 ok2
        (check_property_rent_payment u p d txs ok ledger).1 =
      ((check_property_rent_payment u p d txs ok ledger).1, [])) ∧
    (atMostOnePerKey ledger →
      atMostOnePerKey (check_property_rent_payment u p d txs ok ledger).1) := by
  refine ⟨fun rc h => ?_, ?_, fun hinv => ?_⟩
  · unfold check_property_rent_payment
    rw [h]
  · obtain ⟨rc, hrc⟩ := Option.isSome_iff_exists.mp
      (findExistingCheck_after_check u p d txs ok ledger)
    conv_lhs => rw [check_property_rent_payment, hrc]
  · unfold check_property_rent_payment
    cases hex : findExistingCheck ledger p.id d with
    | some rc => exact hinv
    | none =>
        unfold atMostOnePerKey at hinv ⊢
        rw [List.pairwise_append]
        refine ⟨hinv, by simp, fun a ha b hb => ?_⟩
        rw [List.mem_singleton] at hb
        subst hb
        unfold findExistingCheck at hex
        have hnone := List.find?_eq_none.mp hex a ha
        have hkey := mkRentCheck_key p d (find_rent_payment txs p)
        have hpid := (send_notifications_fst_fields u p
          (mkRentCheck p d (find_rent_payment txs p)) ok).1
        have hdate := (send_notifications_fst_fields u p
          (mkRentCheck p d (find_rent_payment txs p)) ok).2.1
        intro hcontra
        exact hnone (decide_eq_true
          ⟨hcontra.1.trans (hpid.trans hkey.1),
           hcontra.2.trans (hdate.trans hkey.2)⟩)

/-- Witness for C1: re-running the check against a ledger that already holds
the (7, 2025-02-01) row is a no-op with no dispatches, and a run from the
empty ledger preserves the at-most-one-row invariant. -/
theorem check_ledger_idempotent_witness :
    check_property_rent_payment sampleUser sampleProperty sampleDate [sampleTx]
        allSendOk [mkRentCheck sampleProperty sampleDate none] =
      ([mkRentCheck sampleProperty sampleDate none], []) ∧
    atMostOnePerKey (check_property_rent_payment sampleUser sampleProperty
        sampleDate [sampleTx] allSendOk []).1 :=
  ⟨(check_ledger_idempotent sampleUser sampleUser sampleProperty sampleDate
      [sampleTx] [sampleTx] allSendOk allSendOk
      [mkRentCheck sampleProperty sampleDate none]).1 _ rfl,
   (check_ledger_idempotent sampleUser sampleUser sampleProperty sampleDate
      [sampleTx] [sampleTx] allSendOk allSendOk []).2.2 List.Pairwise.nil⟩

/-- Claim C6: a transport failure or a non-2xx aggregator status makes
`get_bank_transactions` return the empty list (the embedding is a total
function: nothing is raised), and the per-property check then proceeds on
the missed-payment path, writing a row with `payment_found = false`. -/
theorem fetch_failure_degrades (creds : Option AkahuCredentials) (msg : String)
    (status : Nat) (items : Option (List Transaction)) (u : User) (p : Property)
    (d : PyDate) (sendOk : Email → Bool) (ledger : List RentCheck) :
    get_bank_transactions creds (HttpOutcome.failure msg) = [] ∧
    (¬ (200 ≤ status ∧ status ≤ 299) →
      get_bank_transactions creds (HttpOutcome.response status items) = []) ∧
    (findExistingCheck ledger p.id d = none →
      ∃ rc dispatches,
        check_property_rent_payment u p d
            (get_bank_transactions creds (HttpOutcome.failure msg)) sendOk ledger =
          (ledger ++ [rc], dispatches) ∧ rc.payment_found = false) := by
  have hfail : get_bank_transactions creds (HttpOutcome.failure msg) = [] := by
    cases creds <;> rfl
  refine ⟨hfail, fun hst => ?_, fun hex => ?_⟩
  · cases creds with
    | none => rfl
    | some c =>
        have hne : status ≠ 200 := by
          intro h200
          exact hst (by omega)
        unfold get_bank_transactions
        simp [hne]
  · rw [hfail]
    refine ⟨(send_notifications u p (mkRentCheck p d none) sendOk).1,
      (send_notifications u p (mkRentCheck p d none) sendOk).2, ?_, ?_⟩
    · unfold check_property_rent_payment
      rw [hex]
      rfl
    · rw [(send_notifications_fst_fields u p (mkRentCheck p d none) sendOk).2.2]
      rfl

/-- Witness for C6: a 503 response yields no transactions, and after a
transport failure the concrete check appends a missed-payment row. -/
theorem fetch_failure_degrades_witness :
    get_bank_transactions (some ⟨"app-tok", "user-tok"⟩)
        (HttpOutcome.response 503 none) = [] ∧
    ∃ rc dispatches,
      check_property_rent_payment sampleUser sampleProperty sampleDate
          (get_bank_transactions (some ⟨"app-tok", "user-tok"⟩)
            (HttpOutcome.failure "connection timed out")) allSendOk [] =
        ([] ++ [rc], dispatches) ∧ rc.payment_found = false :=
  ⟨(fetch_failure_degrades (some ⟨"app-tok", "user-tok"⟩) "connection timed out"
      503 none sampleUser sampleProperty sampleDate allSendOk []).2.1 (by decide),
   (fetch_failure_degrades (some ⟨"app-tok", "user-tok"⟩) "connection timed out"
      503 none sampleUser sampleProperty sampleDate allSendOk []).2.2 rfl⟩

/-- Processing an appended landlord list is processing the two halves in
sequence. -/
theorem check_all_rent_payments_append {σ ε : Type}
    (checkUser : User → σ → Except ε σ) (xs ys : List User) (s : σ) :
    check_all_rent_payments checkUser (xs ++ ys) s =
      check_all_rent_payments checkUser ys
        (check_all_rent_payments checkUser xs s) := by
  induction xs generalizing s with
  | nil => rfl
  | cons x xs ih => exact ih _

/-- Processing an appended property list is processing the two halves in
sequence. -/
theorem check_user_rent_payments_append {σ ε : Type}
    (checkProp : Property → σ → Except ε σ) (due : Property → Bool)
    (xs ys : List Property) (s : σ) :
    check_user_rent_payments checkProp due (xs ++ ys) s =
      check_user_rent_payments checkProp due ys
        (check_user_rent_payments checkProp due xs s) := by
  induction xs generalizing s with
  | nil => rfl
  | cons x xs ih => exact ih _

/-- Claim C8: an exception raised while processing one landlord (in
`check_all_rent_payments`) or one agreement (in `check_user_rent_payments`)
is caught, the state for that entity is left as it was, and processing
continues with all remaining entities; the loops themselves are total, so a
confined failure never aborts the run. -/
theorem driver_failure_isolation (σ ε : Type) :
    (∀ (checkUser : User → σ → Except ε σ) (us vs : List User) (u : User)
      (s : σ) (e : ε),
      checkUser u (check_all_rent_payments checkUser us s) = Except.error e →
      check_all_rent_payments checkUser (us ++ u :: vs) s =
        check_all_rent_payments checkUser vs
          (check_all_rent_payments checkUser us s)) ∧
    (∀ (checkProp : Property → σ → Except ε σ) (due : Property → Bool)
      (ps qs : List Property) (q : Property) (s : σ) (e : ε),
      due q = true →
      checkProp q (check_user_rent_payments checkProp due ps s) = Except.error e →
      check_user_rent_payments checkProp due (ps ++ q :: qs) s =
        check_user_rent_payments checkProp due qs
          (check_user_rent_payments checkProp due ps s)) := by
  constructor
  · intro checkUser us vs u s e herr
    rw [check_all_rent_payments_append]
    conv_lhs => rw [check_all_rent_payments, herr]
  · intro checkProp due ps qs q s e hdue herr
    rw [check_user_rent_payments_append]
    conv_lhs => rw [check_user_rent_payments, hdue, if_pos rfl, herr]

/-- Concrete landlord step that raises exactly on the landlord with id 1. -/
def failOnUserOne : User → Nat → Except Unit Nat :=
  fun u n => if u.id = 1 then Except.error () else Except.ok (n + 1)

/-- Concrete property step that raises exactly on the agreement with id 7. -/
def failOnPropSeven : Property → Nat → Except Unit Nat :=
  fun q n => if q.id = 7 then Except.error () else Except.ok (n + 1)

/-- Second concrete landlord (id 2) for the isolation witness. -/
def sampleUser2 : User :=
  { id := 2, email := "other@example.com", first_name := "Grace",
    last_name := "Hopper", akahu_credentials := some ⟨"app2", "tok2"⟩ }

/-- Second concrete agreement (id 8) for the isolation witness. -/
def sampleProperty2 : Property := { sampleProperty with id := 8 }

/-- Witness for C8: with a step that fails on landlord 1 (resp. agreement 7)
sandwiched between healthy entities, the run result equals processing the
healthy halves in sequence — the failure is swallowed and the run goes on. -/
theorem driver_failure_isolation_witness :
    check_all_rent_payments failOnUserOne
        ([sampleUser2] ++ sampleUser :: [sampleUser2]) 0 =
      check_all_rent_payments failOnUserOne [sampleUser2]
        (check_all_rent_payments failOnUserOne [sampleUser2] 0) ∧
    check_user_rent_payments failOnPropSeven (fun _ => true)
        ([sampleProperty2] ++ sampleProperty :: [sampleProperty2]) 0 =
      check_user_rent_payments failOnPropSeven (fun _ => true) [sampleProperty2]
        (check_user_rent_payments failOnPropSeven (fun _ => true)
          [sampleProperty2] 0) :=
  ⟨(driver_failure_isolation Nat Unit).1 failOnUserOne [sampleUser2]
      [sampleUser2] sampleUser 0 () rfl,
   (driver_failure_isolation Nat Unit).2 failOnPropSeven (fun _ => true)
      [sampleProperty2] [sampleProperty2] sampleProperty 0 () rfl rfl⟩
